import Mathlib

/-!
SlicerRT: the contour conversion test driver and the subject hierarchy plugin base

A shallow embedding of

* `Contours/Testing/Cxx/vtkSlicerContoursModuleLogicTestConversions.cxx`
  (argument parsing, the label-map and closed-surface comparisons, the tolerance test), and
* `SubjectHierarchy/Plugins/qSlicerSubjectHierarchyAbstractPlugin.cxx`
  (`childLevel`, `addNodeToSubjectHierarchy`, `setTooltip`).

Conventions of the embedding:

* `double` arithmetic is read exactly, over `ℚ`; `int` values are `Int`.
* A pointer the source tests against `NULL` is an `Option`; a pointer the source dereferences
  without a test is the object itself. A member call through a pointer that is `NULL` ends the
  run with an error.
* What the C++ library and the host application supply (stream extraction, the content of the
  loaded scene, the converted representations) is a parameter of the functions that use it.
* Of the output of the driver, the diagnostics written to `errorStream` are kept (the first
  line of each); what it writes to `outputStream` is left out.
* The counter `voxelCount` is an `Int` without overflow: it stays below the number of voxels of
  the image.
-/

namespace SlicerRT

/-! ## The tolerance test of the driver -/

/-- The C library's `fabs`, read exactly. -/
def fabs (x : ℚ) : ℚ := |x|

/-- The function `CheckIfResultIsWithinOneTenthPercentFromBaseline(double result, double
baseline)` of the driver. -/
def CheckIfResultIsWithinOneTenthPercentFromBaseline (result baseline : ℚ) : Bool :=
  if baseline = 0.0 then
    decide (fabs (result - baseline) < 0.0001)
  else
    let ratio := result / baseline
    let absoluteDifferencePercent := fabs (ratio - 1.0) * 100.0
    decide (absoluteDifferencePercent < 0.1)

/-! ## Argument parsing of the driver -/

/-- The process exit code `EXIT_SUCCESS`. -/
def EXIT_SUCCESS : Int := 0

/-- The process exit code `EXIT_FAILURE`. -/
def EXIT_FAILURE : Int := 1

/-- The comparison `STRCASECMP` is a macro of `SlicerRtCommon.h` (not among the sources) for the C library's
case-insensitive string comparison: `0` exactly when the two strings agree up to the case of the
letters `A`–`Z`, otherwise negative or positive by the order of the lower-cased strings. -/
def STRCASECMP (a b : String) : Int :=
  let x := a.data.map Char.toLower
  let y := b.data.map Char.toLower
  if x = y then 0 else if x < y then -1 else 1

/-- What the driver takes from the C++ runtime: the stream extractions `ss >> n` (the token put
into the stream and the previous value of the variable give its new value), and the indeterminate
initial values of the locals that the driver declares without an initialiser. -/
structure Runtime where
  /-- The extraction `std::stringstream ss; ss << arg; ss >> n;` for an `int n`. -/
  extractInt : String → Int → Int
  /-- The extraction `std::stringstream ss; ss << arg; ss >> d;` for a `double d`. -/
  extractDouble : String → ℚ → ℚ
  /-- Initial content of `int expectedExtents[6]`. -/
  expectedExtents : Fin 6 → Int
  /-- Initial content of `int expectedNumberOfPoints`. -/
  expectedNumberOfPoints : Int
  /-- Initial content of `int expectedNumberOfCells`. -/
  expectedNumberOfCells : Int
  /-- Initial content of `int expectedNumberOfPolys`. -/
  expectedNumberOfPolys : Int
  /-- Initial content of `double expectedBounds[6]`. -/
  expectedBounds : Fin 6 → ℚ

/-- The local variables of the driver that argument parsing writes. -/
structure Locals where
  argIndex : Nat
  testSceneFileName : Option String
  temporarySceneFileName : Option String
  nonZeroVoxelCount : Int
  expectedExtents : Fin 6 → Int
  expectedNumberOfPoints : Int
  expectedNumberOfCells : Int
  expectedNumberOfPolys : Int
  expectedBounds : Fin 6 → ℚ

/-- The locals as declared: `argIndex = 1`, the two file names `NULL`, `nonZeroVoxelCount(-1)`,
the other expectations uninitialised. -/
def initialLocals (rt : Runtime) : Locals :=
  { argIndex := 1
    testSceneFileName := none
    temporarySceneFileName := none
    nonZeroVoxelCount := -1
    expectedExtents := rt.expectedExtents
    expectedNumberOfPoints := rt.expectedNumberOfPoints
    expectedNumberOfCells := rt.expectedNumberOfCells
    expectedNumberOfPolys := rt.expectedNumberOfPolys
    expectedBounds := rt.expectedBounds }

/-- One `if (argc > argIndex+1) { if (STRCASECMP(argv[argIndex], flag) == 0) {...} else {...} }
else { errorStream << ...; return EXIT_FAILURE; }` block of the driver: the flag it compares
with, the assignment made from the value token when the flag matches, the assignment of the inner
`else` branch (the identity when the block has none), and the diagnostic of the outer `else`. -/
structure FlagBlock where
  flag : String
  bind : Runtime → String → Locals → Locals
  otherwise : Locals → Locals
  diagnostic : String

/-- Runs one block on the argument vector (`argc` is `argv.length`): the error is the line
written to `errorStream` before `return EXIT_FAILURE`. -/
def runFlagBlock (rt : Runtime) (argv : List String) (b : FlagBlock) (l : Locals) :
    Except String Locals :=
  if argv.length > l.argIndex + 1 then
    if STRCASECMP (argv.getD l.argIndex "") b.flag = 0 then
      Except.ok (b.bind rt (argv.getD (l.argIndex + 1) "") { l with argIndex := l.argIndex + 2 })
    else
      Except.ok (b.otherwise l)
  else
    Except.error b.diagnostic

/-- The blocks of the driver, in the order of the source (lines 47–384). -/
def flagBlocks : List FlagBlock :=
  [ { flag := "-TestSceneFile"
      bind := fun _ arg l => { l with testSceneFileName := some arg }
      otherwise := fun l => { l with testSceneFileName := some "" }
      diagnostic := "Invalid arguments!" },
    { flag := "-TemporarySceneFile"
      bind := fun _ arg l => { l with temporarySceneFileName := some arg }
      otherwise := fun l => { l with temporarySceneFileName := some "" }
      diagnostic := "No arguments!" },
    { flag := "-NonZeroVoxelCount"
      bind := fun rt arg l =>
        { l with nonZeroVoxelCount := rt.extractInt arg l.nonZeroVoxelCount }
      otherwise := id
      diagnostic := "No arguments!" },
    { flag := "-LabelMapXMinExtent"
      bind := fun rt arg l =>
        { l with expectedExtents :=
            Function.update l.expectedExtents 0 (rt.extractInt arg (l.expectedExtents 0)) }
      otherwise := id
      diagnostic := "No arguments!" },
    { flag := "-LabelMapXMaxExtent"
      bind := fun rt arg l =>
        { l with expectedExtents :=
            Function.update l.expectedExtents 1 (rt.extractInt arg (l.expectedExtents 1)) }
      otherwise := id
      diagnostic := "No arguments!" },
    { flag := "-LabelMapYMinExtent"
      bind := fun rt arg l =>
        { l with expectedExtents :=
            Function.update l.expectedExtents 2 (rt.extractInt arg (l.expectedExtents 2)) }
      otherwise := id
      diagnostic := "No arguments!" },
    { flag := "-LabelMapYMaxExtent"
      bind := fun rt arg l =>
        { l with expectedExtents :=
            Function.update l.expectedExtents 3 (rt.extractInt arg (l.expectedExtents 3)) }
      otherwise := id
      diagnostic := "No arguments!" },
    { flag := "-LabelMapZMinExtent"
      bind := fun rt arg l =>
        { l with expectedExtents :=
            Function.update l.expectedExtents 4 (rt.extractInt arg (l.expectedExtents 4)) }
      otherwise := id
      diagnostic := "No arguments!" },
    { flag := "-LabelMapZMaxExtent"
      bind := fun rt arg l =>
        { l with expectedExtents :=
            Function.update l.expectedExtents 5 (rt.extractInt arg (l.expectedExtents 5)) }
      otherwise := id
      diagnostic := "No arguments!" },
    { flag := "-ExpectedNumberOfPoints"
      bind := fun rt arg l =>
        { l with expectedNumberOfPoints := rt.extractInt arg l.expectedNumberOfPoints }
      otherwise := id
      diagnostic := "No arguments!" },
    { flag := "-ExpectedNumberOfCells"
      bind := fun rt arg l =>
        { l with expectedNumberOfCells := rt.extractInt arg l.expectedNumberOfCells }
      otherwise := id
      diagnostic := "No arguments!" },
    { flag := "-ExpectedNumberOfPolys"
      bind := fun rt arg l =>
        { l with expectedNumberOfPolys := rt.extractInt arg l.expectedNumberOfPolys }
      otherwise := id
      diagnostic := "No arguments!" },
    { flag := "-ClosedSurfaceXMinExtent"
      bind := fun rt arg l =>
        { l with expectedBounds :=
            Function.update l.expectedBounds 0 (rt.extractDouble arg (l.expectedBounds 0)) }
      otherwise := id
      diagnostic := "No arguments!" },
    { flag := "-ClosedSurfaceXMaxExtent"
      bind := fun rt arg l =>
        { l with expectedBounds :=
            Function.update l.expectedBounds 1 (rt.extractDouble arg (l.expectedBounds 1)) }
      otherwise := id
      diagnostic := "No arguments!" },
    { flag := "-ClosedSurfaceYMinExtent"
      bind := fun rt arg l =>
        { l with expectedBounds :=
            Function.update l.expectedBounds 2 (rt.extractDouble arg (l.expectedBounds 2)) }
      otherwise := id
      diagnostic := "No arguments!" },
    { flag := "-ClosedSurfaceYMaxExtent"
      bind := fun rt arg l =>
        { l with expectedBounds :=
            Function.update l.expectedBounds 3 (rt.extractDouble arg (l.expectedBounds 3)) }
      otherwise := id
      diagnostic := "No arguments!" },
    { flag := "-ClosedSurfaceZMinExtent"
      bind := fun rt arg l =>
        { l with expectedBounds :=
            Function.update l.expectedBounds 4 (rt.extractDouble arg (l.expectedBounds 4)) }
      otherwise := id
      diagnostic := "No arguments!" },
    { flag := "-ClosedSurfaceZMaxExtent"
      bind := fun rt arg l =>
        { l with expectedBounds :=
            Function.update l.expectedBounds 5 (rt.extractDouble arg (l.expectedBounds 5)) }
      otherwise := id
      diagnostic := "No arguments!" } ]

/-- Runs blocks one after the other; the first failing block ends the run. -/
def runFlagBlocks (rt : Runtime) (argv : List String) :
    List FlagBlock → Locals → Except String Locals
  | [], l => Except.ok l
  | b :: bs, l =>
    match runFlagBlock rt argv b l with
    | Except.ok l1 => runFlagBlocks rt argv bs l1
    | Except.error e => Except.error e

/-- Lines 43–384 of the driver: the argument parsing, from the declared locals through all the
blocks. -/
def parseArguments (rt : Runtime) (argv : List String) : Except String Locals :=
  runFlagBlocks rt argv flagBlocks (initialLocals rt)

/-- The flag names the driver compares `argv[argIndex]` with, in the order of the source. -/
def flagNames : List String := flagBlocks.map FlagBlock.flag

/-! ## The scene of the driver and its comparisons -/

/-- A `vtkImageData` as the driver reads it: `GetExtent` and, at a voxel, the `unsigned char`
that `GetScalarPointer(x,y,z)` points to. -/
structure ImageData where
  extent : Fin 6 → Int
  scalar : Int → Int → Int → Nat

/-- A `vtkPolyData` as the driver reads it. -/
structure PolyData where
  numberOfPoints : Int
  numberOfCells : Int
  numberOfPolys : Int

/-- A `vtkMRMLModelNode` as the driver reads it: `GetRASBounds` and `GetPolyData`. -/
structure ModelNode where
  rasBounds : Fin 6 → ℚ
  polyData : PolyData

/-- The body contour node as the driver uses it: the image of the indexed label-map node that
`ReconvertRepresentation(IndexedLabelmap)` leaves on it (reference volume the dose volume,
oversampling factor 2.0) and the closed-surface model node that
`ReconvertRepresentation(ClosedSurfaceModel)` leaves on it (decimation target 0.0). The converter
`vtkConvertContourRepresentations` is outside the sources. -/
structure ContourNode where
  indexedLabelmap : ImageData
  closedSurfaceModel : ModelNode

/-- The imported scene as the driver queries it: the number of items of
`GetNodesByName("Dose")`, and `GetNodeByID("vtkMRMLContourNode1")` down-cast to a contour node
(`NULL` is `none`). -/
structure Scene where
  doseVolumeNodes : Nat
  bodyContourNode : Option ContourNode

/-- The host side of the driver: the scene that results from importing the test scene file and
committing it to the temporary scene file. -/
structure Host where
  importScene : String → String → Scene

/-- The representations of `vtkMRMLContourNode` that the driver converts to. -/
inductive Representation where
  | IndexedLabelmap
  | ClosedSurfaceModel
  deriving DecidableEq

/-- The calls the driver makes on the scene, the file system and the converter. -/
inductive Action where
  | Import (url : String)
  | RemoveFile (name : String)
  | Commit (url : String)
  | ReconvertRepresentation (r : Representation)
  deriving DecidableEq

/-- The outcome of a run of the driver: its return value, the first line of each diagnostic
written to `errorStream`, and the calls made, in order. -/
structure Run where
  exitCode : Int
  errorStream : List String
  actions : List Action

/-- The values `lo, lo+1, ..., hi-1` that the variable of `for (int v = lo; v < hi; v++)`
takes. -/
def forRange (lo hi : Int) : List Int :=
  (List.range (hi - lo).toNat).map (fun i => lo + (i : Int))

/-- Lines 460–474 of the driver: `voxelCount` after the three nested loops over the image. -/
def voxelCount (image : ImageData) (extents : Fin 6 → Int) : Int :=
  (forRange (extents 4) (extents 5)).foldl (fun count z =>
    (forRange (extents 2) (extents 3)).foldl (fun count y =>
      (forRange (extents 0) (extents 1)).foldl (fun count x =>
        if image.scalar x y z ≠ 0 then count + 1 else count) count) count) 0

/-- Lines 386–533 of the driver: what follows a successful argument parsing. -/
def runConversions (host : Host) (l : Locals) : Run :=
  let testSceneFileName := l.testSceneFileName.getD ""
  let temporarySceneFileName := l.temporarySceneFileName.getD ""
  let mrmlScene := host.importScene testSceneFileName temporarySceneFileName
  let loaded : List Action :=
    [Action.Import testSceneFileName, Action.RemoveFile temporarySceneFileName,
      Action.Commit temporarySceneFileName]
  if mrmlScene.doseVolumeNodes ≠ 1 then
    { exitCode := EXIT_FAILURE
      errorStream := ["ERROR: Failed to get CT volume!"]
      actions := loaded ++ [Action.Commit temporarySceneFileName] }
  else
    match mrmlScene.bodyContourNode with
    | none =>
      { exitCode := EXIT_FAILURE
        errorStream := ["ERROR: Failed to get body contour!"]
        actions := loaded ++ [Action.Commit temporarySceneFileName] }
    | some bodyContourNode =>
      let labelmapDone := loaded ++ [Action.ReconvertRepresentation Representation.IndexedLabelmap]
      let image := bodyContourNode.indexedLabelmap
      let extents := image.extent
      if extents 0 ≠ l.expectedExtents 0 ∨
          extents 1 ≠ l.expectedExtents 1 ∨
          extents 2 ≠ l.expectedExtents 2 ∨
          extents 3 ≠ l.expectedExtents 3 ∨
          extents 4 ≠ l.expectedExtents 4 ∨
          extents 5 ≠ l.expectedExtents 5 then
        { exitCode := EXIT_FAILURE
          errorStream := ["Extents don't match."]
          actions := labelmapDone }
      else if voxelCount image extents ≠ l.nonZeroVoxelCount then
        { exitCode := EXIT_FAILURE
          errorStream := ["Non-zero voxel count does not match expected result."]
          actions := labelmapDone }
      else
        let surfaceDone :=
          labelmapDone ++ [Action.ReconvertRepresentation Representation.ClosedSurfaceModel]
        let closedSurfaceModelNode := bodyContourNode.closedSurfaceModel
        let bounds := closedSurfaceModelNode.rasBounds
        if (!CheckIfResultIsWithinOneTenthPercentFromBaseline (bounds 0) (l.expectedBounds 0) ||
            !CheckIfResultIsWithinOneTenthPercentFromBaseline (bounds 1) (l.expectedBounds 1) ||
            !CheckIfResultIsWithinOneTenthPercentFromBaseline (bounds 2) (l.expectedBounds 2) ||
            !CheckIfResultIsWithinOneTenthPercentFromBaseline (bounds 3) (l.expectedBounds 3) ||
            !CheckIfResultIsWithinOneTenthPercentFromBaseline (bounds 4) (l.expectedBounds 4) ||
            !CheckIfResultIsWithinOneTenthPercentFromBaseline (bounds 5) (l.expectedBounds 5))
            = true then
          { exitCode := EXIT_FAILURE
            errorStream := ["Closed surface bounds don't match."]
            actions := surfaceDone }
        else if closedSurfaceModelNode.polyData.numberOfPoints ≠ l.expectedNumberOfPoints then
          { exitCode := EXIT_FAILURE
            errorStream := ["Number of points mismatch in closed surface model."]
            actions := surfaceDone }
        else if closedSurfaceModelNode.polyData.numberOfCells ≠ l.expectedNumberOfCells then
          { exitCode := EXIT_FAILURE
            errorStream := ["Number of cells mismatch in closed surface model."]
            actions := surfaceDone }
        else if closedSurfaceModelNode.polyData.numberOfPolys ≠ l.expectedNumberOfPolys then
          { exitCode := EXIT_FAILURE
            errorStream := ["Number of polys mismatch in closed surface model."]
            actions := surfaceDone }
        else
          { exitCode := EXIT_SUCCESS
            errorStream := []
            actions := surfaceDone }

/-- The driver `int vtkSlicerContoursModuleLogicTestConversions(int argc, char* argv[])`. -/
def vtkSlicerContoursModuleLogicTestConversions (rt : Runtime) (host : Host)
    (argv : List String) : Run :=
  match parseArguments rt argv with
  | Except.error diagnostic =>
    { exitCode := EXIT_FAILURE, errorStream := [diagnostic], actions := [] }
  | Except.ok l => runConversions host l

/-- The number of non-zero voxels of the image over a whole extent box, every voxel `(x,y,z)`
with `xmin ≤ x ≤ xmax`, `ymin ≤ y ≤ ymax`, `zmin ≤ z ≤ zmax` counted once: the count the
specification describes. -/
def nonZeroVoxelsInExtentBox (image : ImageData) (extents : Fin 6 → Int) : Int :=
  ((forRange (extents 4) (extents 5 + 1)).map (fun z =>
    ((forRange (extents 2) (extents 3 + 1)).map (fun y =>
      ((forRange (extents 0) (extents 1 + 1)).filter
        (fun x => decide (image.scalar x y z ≠ 0))).length)).sum)).sum

/-! ## The subject hierarchy plugin base -/

/-- A `QMap<QString, QString>` as the plugin uses it (the member `m_ChildLevelMap` is declared
in the header, outside the sources): the key/value entries, at most the first entry of a key
counting. -/
structure QMap where
  entries : List (String × String)
  deriving DecidableEq

/-- The member `QMap::contains(key)`. -/
def QMap.contains (m : QMap) (key : String) : Bool :=
  m.entries.any (fun e => e.1 == key)

/-- The member `QMap::operator[](key)` of a non-const map: the value of the key, and the map afterwards: a
key that is absent is inserted with a default-constructed (empty) value. -/
def QMap.index (m : QMap) (key : String) : String × QMap :=
  match m.entries.find? (fun e => e.1 == key) with
  | some e => (e.2, m)
  | none => ("", { entries := m.entries ++ [(key, "")] })

/-- The value the map assigns to a key, when it has the key. -/
def QMap.value? (m : QMap) (key : String) : Option String :=
  (m.entries.find? (fun e => e.1 == key)).map Prod.snd

/-- A `vtkMRMLNode` as the plugin reads it. -/
structure vtkMRMLNode where
  name : String
  nodeTagName : String
  deriving DecidableEq

/-- A `vtkMRMLSubjectHierarchyNode` as the plugin reads it (`GetOwnerPluginName` and
`GetAssociatedDataNode` may be `NULL`). -/
structure vtkMRMLSubjectHierarchyNode where
  name : String
  level : String
  ownerPluginName : Option String
  associatedDataNode : Option vtkMRMLNode
  deriving DecidableEq

/-- A `vtkMRMLScene` as the plugin changes it: its subject hierarchy nodes. -/
structure vtkMRMLScene where
  subjectHierarchyNodes : List vtkMRMLSubjectHierarchyNode
  deriving DecidableEq

/-- The type of `vtkMRMLSubjectHierarchyNode::CreateSubjectHierarchyNode(scene, parent, level,
nodeName, associatedNode)`, a static function defined outside the sources: the scene after the
call. The plugin functions take it as a parameter. -/
abbrev CreateSubjectHierarchyNodeFn :=
  vtkMRMLScene → vtkMRMLSubjectHierarchyNode → String → String → vtkMRMLNode → vtkMRMLScene

/-- The members of `qSlicerSubjectHierarchyAbstractPlugin` that the embedded functions use. -/
structure qSlicerSubjectHierarchyAbstractPlugin where
  m_Name : String
  m_ChildLevelMap : QMap
  deriving DecidableEq

/-- The result of a member function of the plugin: the returned value, the plugin afterwards,
and the lines written with `qCritical()`. -/
structure Call (α : Type) where
  value : α
  plugin : qSlicerSubjectHierarchyAbstractPlugin
  critical : List String

/-- The member `QString qSlicerSubjectHierarchyAbstractPlugin::childLevel(QString
parentLevel)`. -/
def childLevel (this : qSlicerSubjectHierarchyAbstractPlugin) (parentLevel : String) :
    Call String :=
  if this.m_ChildLevelMap.contains parentLevel = true then
    let r := this.m_ChildLevelMap.index parentLevel
    { value := r.1, plugin := { this with m_ChildLevelMap := r.2 }, critical := [] }
  else
    { value := ""
      plugin := this
      critical := ["qSlicerSubjectHierarchyAbstractPlugin::childLevel: Could not get child level for level '"
        ++ parentLevel ++ "'!"] }

/-- The result of `addNodeToSubjectHierarchy`: the result of the call and the scene of the
plugin handler afterwards. -/
structure AddResult where
  call : Call Bool
  scene : Option vtkMRMLScene

/-- The member `bool qSlicerSubjectHierarchyAbstractPlugin::addNodeToSubjectHierarchy(vtkMRMLNode*
nodeToAdd, vtkMRMLSubjectHierarchyNode* parentNode)`; `handlerScene` is
`qSlicerSubjectHierarchyPluginHandler::instance()->scene()`. -/
def addNodeToSubjectHierarchy (CreateSubjectHierarchyNode : CreateSubjectHierarchyNodeFn)
    (this : qSlicerSubjectHierarchyAbstractPlugin) (handlerScene : Option vtkMRMLScene)
    (nodeToAdd : Option vtkMRMLNode) (parentNode : Option vtkMRMLSubjectHierarchyNode) :
    AddResult :=
  match nodeToAdd, parentNode with
  | some nodeToAdd, some parentNode =>
    match handlerScene with
    | none =>
      { call :=
          { value := false
            plugin := this
            critical := ["qSlicerSubjectHierarchyAbstractPlugin::addNodeToSubjectHierarchy: Invalid MRML scene!"] }
        scene := none }
    | some scene =>
      let level := childLevel this parentNode.level
      { call := { value := true, plugin := level.plugin, critical := level.critical }
        scene := some (CreateSubjectHierarchyNode scene parentNode level.value nodeToAdd.name
          nodeToAdd) }
  | _, _ =>
    { call :=
        { value := false
          plugin := this
          critical := ["qSlicerSubjectHierarchyAbstractPlugin::addNodeToSubjectHierarchy: Invalid node to add or parent node!"] }
      scene := handlerScene }

/-- A `QStandardItem` as the plugin changes it: its tooltip. -/
structure QStandardItem where
  toolTip : String
  deriving DecidableEq

/-- The member `QStandardItem::setToolTip(toolTip)`. -/
def QStandardItem.setToolTip (item : QStandardItem) (toolTip : String) : QStandardItem :=
  { item with toolTip := toolTip }

/-- A member call through a null pointer, which ends the run: the call, the item as it was
left, and the lines written with `qCritical()` before. -/
structure NullDereference where
  call : String
  item : QStandardItem
  critical : List String
  deriving DecidableEq

/-- The member `void qSlicerSubjectHierarchyAbstractPlugin::setTooltip(
vtkMRMLSubjectHierarchyNode* node, QStandardItem* item)`: the item afterwards, or the member call
on the null node. The block of `if (!node)` has no `return`, so the statements after it run for
a null node too. -/
def setTooltip (node : Option vtkMRMLSubjectHierarchyNode) (item : QStandardItem) :
    Except NullDereference QStandardItem :=
  let critical : List String :=
    match node with
    | none =>
      ["qSlicerSubjectHierarchyAbstractPlugin::setTooltip: Subject hierarchy node is NULL!"]
    | some _ => []
  let item : QStandardItem :=
    match node with
    | none => item.setToolTip "Invalid!"
    | some _ => item
  let tooltipString : String := ""
  match node with
  | none =>
    Except.error { call := "node->GetAssociatedDataNode()", item := item, critical := critical }
  | some node =>
    let associatedNode := node.associatedDataNode
    let tooltipString :=
      match associatedNode with
      | some associatedNode => (tooltipString ++ associatedNode.nodeTagName) ++ " ("
      | none => tooltipString
    let tooltipString := tooltipString ++ "Level:"
    let tooltipString := tooltipString ++ node.level
    let tooltipString := tooltipString ++ " Plugin:"
    let tooltipString := tooltipString ++
      (match node.ownerPluginName with
       | some ownerPluginName => ownerPluginName
       | none => "None")
    let tooltipString :=
      match associatedNode with
      | some _ => tooltipString ++ ")"
      | none => tooltipString
    Except.ok (item.setToolTip tooltipString)

/-! ## Auxiliary definitions of the proofs -/

/-- A block whose assignments leave `argIndex` to `runFlagBlock`. -/
def FlagBlock.KeepsArgIndex (b : FlagBlock) : Prop :=
  (∀ rt arg l, (b.bind rt arg l).argIndex = l.argIndex) ∧
    ∀ l, (b.otherwise l).argIndex = l.argIndex

/-- The locals after a parse in which every block matched: each variable holds what was read
from the token after its own flag. -/
def boundLocals (rt : Runtime) (argv : List String) : Locals :=
  { argIndex := 37
    testSceneFileName := some (argv.getD 2 "")
    temporarySceneFileName := some (argv.getD 4 "")
    nonZeroVoxelCount := rt.extractInt (argv.getD 6 "") (-1)
    expectedExtents := fun i =>
      rt.extractInt (argv.getD (8 + 2 * i.val) "") (rt.expectedExtents i)
    expectedNumberOfPoints := rt.extractInt (argv.getD 20 "") rt.expectedNumberOfPoints
    expectedNumberOfCells := rt.extractInt (argv.getD 22 "") rt.expectedNumberOfCells
    expectedNumberOfPolys := rt.extractInt (argv.getD 24 "") rt.expectedNumberOfPolys
    expectedBounds := fun i =>
      rt.extractDouble (argv.getD (26 + 2 * i.val) "") (rt.expectedBounds i) }

/-- A block whose assignments leave `nonZeroVoxelCount` alone. -/
def FlagBlock.KeepsVoxelCount (b : FlagBlock) : Prop :=
  (∀ rt arg l, (b.bind rt arg l).nonZeroVoxelCount = l.nonZeroVoxelCount) ∧
    ∀ l, (b.otherwise l).nonZeroVoxelCount = l.nonZeroVoxelCount

/-- Whether the block of `-NonZeroVoxelCount` (the third of the source) finds its flag: the two
blocks before it have run, and the token at the argument index they leave compares equal to the
flag. -/
def nonZeroVoxelCountFlagMatched (rt : Runtime) (argv : List String) : Bool :=
  match runFlagBlocks rt argv (flagBlocks.take 2) (initialLocals rt) with
  | Except.ok l =>
    decide (argv.length > l.argIndex + 1 ∧
      STRCASECMP (argv.getD l.argIndex "") "-NonZeroVoxelCount" = 0)
  | Except.error _ => false

/-- The extents with each maximum lowered by one. -/
def lowerMaxima (extents : Fin 6 → Int) : Fin 6 → Int :=
  ![extents 0, extents 1 - 1, extents 2, extents 3 - 1, extents 4, extents 5 - 1]

/-! ## Example data

A runtime that reads decimal integers, a host with one test scene, and command lines for it. -/

/-- The value of a string of decimal digits. -/
def decimalValue (digits : List Char) : Nat :=
  digits.foldl (fun n c => 10 * n + (c.toNat - 48)) 0

/-- Reads an optionally signed decimal integer; a token that is none leaves the old value. -/
def readDecimal (arg : String) (old : Int) : Int :=
  match arg.data with
  | '-' :: digits =>
    if digits ≠ [] ∧ digits.all Char.isDigit = true then -(decimalValue digits : Int) else old
  | digits =>
    if digits ≠ [] ∧ digits.all Char.isDigit = true then (decimalValue digits : Int) else old

/-- A runtime whose extractions read decimal integers and whose uninitialised locals hold
zero. -/
def exampleRuntime : Runtime :=
  { extractInt := readDecimal
    extractDouble := fun arg _ => (readDecimal arg 0 : ℚ)
    expectedExtents := fun _ => 0
    expectedNumberOfPoints := 0
    expectedNumberOfCells := 0
    expectedNumberOfPolys := 0
    expectedBounds := fun _ => 0 }

/-- A body contour: a 3×3×3 label map with the centre voxel set, and a closed surface (a cube)
of 8 points and 12 triangles between -1 and 1. -/
def exampleBodyContour : ContourNode :=
  { indexedLabelmap :=
      { extent := ![0, 2, 0, 2, 0, 2]
        scalar := fun x y z => if x = 1 ∧ y = 1 ∧ z = 1 then 1 else 0 }
    closedSurfaceModel :=
      { rasBounds := ![-1, 1, -1, 1, -1, 1]
        polyData := { numberOfPoints := 8, numberOfCells := 12, numberOfPolys := 12 } } }

/-- A host on which the scene file `test.mrml` holds one dose volume and the body contour, and
any other file gives an empty scene. -/
def exampleHost : Host :=
  { importScene := fun testSceneFileName _ =>
      if testSceneFileName = "test.mrml" then
        { doseVolumeNodes := 1, bodyContourNode := some exampleBodyContour }
      else
        { doseVolumeNodes := 0, bodyContourNode := none } }

/-- The values of the example command line, after the two scene files. -/
def exampleValues : List String :=
  ["-NonZeroVoxelCount", "1",
   "-LabelMapXMinExtent", "0", "-LabelMapXMaxExtent", "2",
   "-LabelMapYMinExtent", "0", "-LabelMapYMaxExtent", "2",
   "-LabelMapZMinExtent", "0", "-LabelMapZMaxExtent", "2",
   "-ExpectedNumberOfPoints", "8", "-ExpectedNumberOfCells", "12",
   "-ExpectedNumberOfPolys", "12",
   "-ClosedSurfaceXMinExtent", "-1", "-ClosedSurfaceXMaxExtent", "1",
   "-ClosedSurfaceYMinExtent", "-1", "-ClosedSurfaceYMaxExtent", "1",
   "-ClosedSurfaceZMinExtent", "-1", "-ClosedSurfaceZMaxExtent", "1"]

/-- A command line that gives every flag, in order, with a value. -/
def exampleArgv : List String :=
  ["vtkSlicerContoursModuleLogicTestConversions", "-TestSceneFile", "test.mrml",
   "-TemporarySceneFile", "temp.mrml"] ++ exampleValues

/-- The example command line with its first flag misspelled. -/
def misspelledArgv : List String :=
  ["vtkSlicerContoursModuleLogicTestConversions", "-TestSceneFil", "test.mrml",
   "-TemporarySceneFile", "temp.mrml"] ++ exampleValues

/-- The example command line without the flag `-TestSceneFile` and its value. -/
def missingFlagArgv : List String :=
  ["vtkSlicerContoursModuleLogicTestConversions",
   "-TemporarySceneFile", "temp.mrml"] ++ exampleValues

/-- A command line of the last flag alone, with a value. -/
def lastFlagArgv : List String :=
  ["vtkSlicerContoursModuleLogicTestConversions", "-ClosedSurfaceZMaxExtent", "1"]

/-- A command line that ends after its first flag. -/
def truncatedArgv : List String :=
  ["vtkSlicerContoursModuleLogicTestConversions", "-TestSceneFile"]

/-- A label map of 2×2×2 voxels, all of them non-zero. -/
def fullImage : ImageData :=
  { extent := ![0, 1, 0, 1, 0, 1]
    scalar := fun _ _ _ => 1 }

/-- A body contour whose label map is `fullImage`, with the surface of the example. -/
def fullBodyContour : ContourNode :=
  { indexedLabelmap := fullImage
    closedSurfaceModel := exampleBodyContour.closedSurfaceModel }

/-- A host on which the scene file `test.mrml` holds one dose volume and `fullBodyContour`, and
any other file gives an empty scene. -/
def fullHost : Host :=
  { importScene := fun testSceneFileName _ =>
      if testSceneFileName = "test.mrml" then
        { doseVolumeNodes := 1, bodyContourNode := some fullBodyContour }
      else
        { doseVolumeNodes := 0, bodyContourNode := none } }

/-- A command line for `fullHost` that gives every flag: the extents of `fullImage`, the
counts and bounds of the example surface, and 1 as the expected number of non-zero voxels. -/
def fullArgv : List String :=
  ["vtkSlicerContoursModuleLogicTestConversions", "-TestSceneFile", "test.mrml",
   "-TemporarySceneFile", "temp.mrml",
   "-NonZeroVoxelCount", "1",
   "-LabelMapXMinExtent", "0", "-LabelMapXMaxExtent", "1",
   "-LabelMapYMinExtent", "0", "-LabelMapYMaxExtent", "1",
   "-LabelMapZMinExtent", "0", "-LabelMapZMaxExtent", "1"] ++ exampleValues.drop 14

/-- A creation function that appends the new hierarchy node to the scene. -/
def appendSubjectHierarchyNode : CreateSubjectHierarchyNodeFn :=
  fun scene _ level nodeName associatedNode =>
    { subjectHierarchyNodes := scene.subjectHierarchyNodes ++
        [{ name := nodeName, level := level, ownerPluginName := none,
           associatedDataNode := some associatedNode }] }

/-- A plugin that knows the child level of a study only. -/
def examplePlugin : qSlicerSubjectHierarchyAbstractPlugin :=
  { m_Name := "Volumes", m_ChildLevelMap := { entries := [("Study", "Series")] } }

/-- A hierarchy node of the level `Subject`, which `examplePlugin` has no child level for. -/
def exampleSubject : vtkMRMLSubjectHierarchyNode :=
  { name := "Patient_SubjectHierarchy", level := "Subject", ownerPluginName := none,
    associatedDataNode := none }

/-- A data node. -/
def exampleDose : vtkMRMLNode :=
  { name := "Dose", nodeTagName := "Volume" }

/-- The example command line without the flag `-NonZeroVoxelCount` and its value. -/
def missingCountArgv : List String :=
  ["vtkSlicerContoursModuleLogicTestConversions", "-TestSceneFile", "test.mrml",
   "-TemporarySceneFile", "temp.mrml"] ++ exampleValues.drop 2

/-- An item with a tooltip from before. -/
def exampleItem : QStandardItem :=
  { toolTip := "Dose" }

/-- A hierarchy node of a series, owned by a plugin and associated to the example data node. -/
def exampleSeries : vtkMRMLSubjectHierarchyNode :=
  { name := "Dose_SubjectHierarchy", level := "Series", ownerPluginName := some "Volumes",
    associatedDataNode := some exampleDose }

/-! ## Lemmas on running the flag blocks -/

theorem runFlagBlocks_cons_match (rt : Runtime) (argv : List String) (b : FlagBlock)
    (bs : List FlagBlock) (l : Locals) (hlen : l.argIndex + 1 < argv.length)
    (hflag : STRCASECMP (argv.getD l.argIndex "") b.flag = 0) :
    runFlagBlocks rt argv (b :: bs) l =
      runFlagBlocks rt argv bs
        (b.bind rt (argv.getD (l.argIndex + 1) "") { l with argIndex := l.argIndex + 2 }) := by
  simp only [runFlagBlocks, runFlagBlock]
  rw [if_pos hlen, if_pos hflag]

/-- A block with fewer than two tokens left at the index ends the run with its diagnostic. -/
theorem runFlagBlocks_cons_short (rt : Runtime) (argv : List String) (b : FlagBlock)
    (bs : List FlagBlock) (l : Locals) (hlen : argv.length ≤ l.argIndex + 1) :
    runFlagBlocks rt argv (b :: bs) l = Except.error b.diagnostic := by
  have : ¬ l.argIndex + 1 < argv.length := by omega
  simp only [runFlagBlocks, runFlagBlock]
  rw [if_neg this]


/-- The assignments of the blocks of the driver leave the index alone. -/
theorem flagBlocks_keepsArgIndex : ∀ b ∈ flagBlocks, b.KeepsArgIndex := by
  intro b hb
  simp only [flagBlocks, List.mem_cons, List.mem_singleton, List.not_mem_nil, or_false] at hb
  rcases hb with h | h | h | h | h | h | h | h | h | h | h | h | h | h | h | h | h | h <;>
    subst h <;> exact ⟨fun _ _ _ => rfl, fun _ => rfl⟩

/-- A block that does not fail had two tokens left, and moved the index by two on a match and not at all otherwise. -/
theorem runFlagBlock_ok (rt : Runtime) (argv : List String) (b : FlagBlock) (l l1 : Locals)
    (hkeep : b.KeepsArgIndex) (h : runFlagBlock rt argv b l = Except.ok l1) :
    l.argIndex + 1 < argv.length ∧
      ((STRCASECMP (argv.getD l.argIndex "") b.flag = 0 ∧ l1.argIndex = l.argIndex + 2) ∨
       (STRCASECMP (argv.getD l.argIndex "") b.flag ≠ 0 ∧ l1.argIndex = l.argIndex)) := by
  unfold runFlagBlock at h
  split_ifs at h with h1 h2
  · injection h with h
    subst h
    exact ⟨h1, Or.inl ⟨h2, by rw [hkeep.1]⟩⟩
  · injection h with h
    subst h
    exact ⟨h1, Or.inr ⟨h2, by rw [hkeep.2]⟩⟩

/-- A block fails only with fewer than two tokens left at the index. -/
theorem runFlagBlock_error (rt : Runtime) (argv : List String) (b : FlagBlock) (l : Locals)
    (e : String) (h : runFlagBlock rt argv b l = Except.error e) :
    argv.length ≤ l.argIndex + 1 := by
  unfold runFlagBlock at h
  split_ifs at h with h1 h2
  exact Nat.le_of_not_lt h1

/-- A run fails exactly when, after some blocks, fewer than two tokens remain at the index. -/
theorem runFlagBlocks_fails_iff (rt : Runtime) (argv : List String) (bs : List FlagBlock) :
    ∀ l, (∃ e, runFlagBlocks rt argv bs l = Except.error e) ↔
      ∃ k, k < bs.length ∧ ∃ lk, runFlagBlocks rt argv (bs.take k) l = Except.ok lk ∧
        argv.length ≤ lk.argIndex + 1 := by
  induction bs with
  | nil =>
    intro l
    simp [runFlagBlocks]
  | cons b bs ih =>
    intro l
    constructor
    · rintro ⟨e, he⟩
      simp only [runFlagBlocks] at he
      cases hb : runFlagBlock rt argv b l with
      | error e1 =>
        exact ⟨0, by simp, l, rfl, runFlagBlock_error rt argv b l e1 hb⟩
      | ok l1 =>
        rw [hb] at he
        obtain ⟨k, hk, lk, hlk, hshort⟩ := (ih l1).1 ⟨e, he⟩
        refine ⟨k + 1, by simpa using hk, lk, ?_, hshort⟩
        simp only [List.take_succ_cons, runFlagBlocks, hb]
        exact hlk
    · rintro ⟨k, hk, lk, hlk, hshort⟩
      cases k with
      | zero =>
        simp only [List.take_zero, runFlagBlocks] at hlk
        injection hlk with hlk
        subst hlk
        exact ⟨b.diagnostic, runFlagBlocks_cons_short rt argv b bs l hshort⟩
      | succ k =>
        simp only [List.take_succ_cons, runFlagBlocks] at hlk
        cases hb : runFlagBlock rt argv b l with
        | error e1 =>
          rw [hb] at hlk
          cases hlk
        | ok l1 =>
          rw [hb] at hlk
          obtain ⟨e, he⟩ := (ih l1).2 ⟨k, by simpa using hk, lk, hlk, hshort⟩
          exact ⟨e, by simp only [runFlagBlocks, hb]; exact he⟩

/-- Blocks that all match advance the index by two each. -/
theorem runFlagBlocks_all_match (rt : Runtime) (argv : List String) (bs : List FlagBlock) :
    ∀ l, (∀ b ∈ bs, b.KeepsArgIndex) → l.argIndex + 2 * bs.length ≤ argv.length →
      (∀ i, i < bs.length →
        STRCASECMP (argv.getD (l.argIndex + 2 * i) "") ((bs.map FlagBlock.flag).getD i "") = 0) →
      ∃ l1, runFlagBlocks rt argv bs l = Except.ok l1 ∧
        l1.argIndex = l.argIndex + 2 * bs.length := by
  induction bs with
  | nil =>
    intro l _ _ _
    exact ⟨l, rfl, by simp⟩
  | cons b bs ih =>
    intro l hkeep hlen hflags
    have hlen1 : l.argIndex + 1 < argv.length := by
      simp only [List.length_cons] at hlen
      omega
    have h0 := hflags 0 (by simp)
    simp only [Nat.mul_zero, Nat.add_zero, List.map_cons, List.getD_cons_zero] at h0
    rw [runFlagBlocks_cons_match rt argv b bs l hlen1 h0]
    have hidx : (b.bind rt (argv.getD (l.argIndex + 1) "")
        { l with argIndex := l.argIndex + 2 }).argIndex = l.argIndex + 2 := by
      rw [(hkeep b (by simp)).1]
    obtain ⟨l1, hl1, hl1idx⟩ := ih _ (fun c hc => hkeep c (by simp [hc]))
      (by rw [hidx]; simp only [List.length_cons] at hlen; omega)
      (by
        intro i hi
        have := hflags (i + 1) (by simpa using hi)
        simp only [List.map_cons, List.getD_cons_succ] at this
        rw [hidx]
        have he : l.argIndex + 2 + 2 * i = l.argIndex + 2 * (i + 1) := by ring
        rw [he]
        exact this)
    refine ⟨l1, hl1, ?_⟩
    rw [hl1idx, hidx]
    simp only [List.length_cons]
    ring

/-- What a successful run says about the argument vector. -/
theorem runFlagBlocks_ok_index (rt : Runtime) (argv : List String) (bs : List FlagBlock) :
    ∀ l l1, (∀ b ∈ bs, b.KeepsArgIndex) → runFlagBlocks rt argv bs l = Except.ok l1 →
      ∃ m, m ≤ bs.length ∧ l1.argIndex = l.argIndex + 2 * m ∧
        (bs ≠ [] → l1.argIndex ≤ argv.length) ∧
        (∀ i, i < m → ∃ f ∈ bs.map FlagBlock.flag,
          STRCASECMP (argv.getD (l.argIndex + 2 * i) "") f = 0) ∧
        (m = bs.length → ∀ i, i < bs.length →
          STRCASECMP (argv.getD (l.argIndex + 2 * i) "")
            ((bs.map FlagBlock.flag).getD i "") = 0) := by
  induction bs with
  | nil =>
    intro l l1 _ h
    simp only [runFlagBlocks] at h
    injection h with h
    subst h
    exact ⟨0, by simp, by simp, by simp, by simp, by simp⟩
  | cons b bs ih =>
    intro l l1 hkeep h
    simp only [runFlagBlocks] at h
    cases hb : runFlagBlock rt argv b l with
    | error e =>
      rw [hb] at h
      cases h
    | ok l2 =>
      rw [hb] at h
      obtain ⟨hlen, hcase⟩ := runFlagBlock_ok rt argv b l l2 (hkeep b (by simp)) hb
      obtain ⟨m, hm, hidx, hle, hsome, hall⟩ := ih l2 l1 (fun c hc => hkeep c (by simp [hc])) h
      have hle1 : l1.argIndex ≤ argv.length := by
        by_cases hbs : bs = []
        · subst hbs
          simp only [runFlagBlocks] at h
          injection h with h
          subst h
          rcases hcase with ⟨_, h2⟩ | ⟨_, h2⟩ <;> omega
        · exact hle hbs
      rcases hcase with ⟨hflag, h2⟩ | ⟨hflag, h2⟩
      · refine ⟨m + 1, by simpa using hm, by rw [hidx, h2]; ring, fun _ => hle1, ?_, ?_⟩
        · intro i hi
          cases i with
          | zero => exact ⟨b.flag, by simp, by simpa using hflag⟩
          | succ i =>
            obtain ⟨f, hf, hfm⟩ := hsome i (by omega)
            refine ⟨f, by simp only [List.map_cons, List.mem_cons]; exact Or.inr hf, ?_⟩
            have he : l.argIndex + 2 * (i + 1) = l2.argIndex + 2 * i := by rw [h2]; ring
            rw [he]
            exact hfm
        · intro hmeq i hi
          cases i with
          | zero => simpa using hflag
          | succ i =>
            have := hall (by simpa using hmeq) i (by simpa using hi)
            simp only [List.map_cons, List.getD_cons_succ]
            have he : l.argIndex + 2 * (i + 1) = l2.argIndex + 2 * i := by rw [h2]; ring
            rw [he]
            exact this
      · refine ⟨m, by simp only [List.length_cons]; omega, by rw [hidx, h2], fun _ => hle1, ?_, ?_⟩
        · intro i hi
          obtain ⟨f, hf, hfm⟩ := hsome i hi
          refine ⟨f, by simp only [List.map_cons, List.mem_cons]; exact Or.inr hf, ?_⟩
          rw [← h2]
          exact hfm
        · intro hmeq
          simp only [List.length_cons] at hmeq
          omega

/-- The flag names, written out. -/
theorem flagNames_eq : flagNames =
    ["-TestSceneFile", "-TemporarySceneFile", "-NonZeroVoxelCount",
     "-LabelMapXMinExtent", "-LabelMapXMaxExtent", "-LabelMapYMinExtent",
     "-LabelMapYMaxExtent", "-LabelMapZMinExtent", "-LabelMapZMaxExtent",
     "-ExpectedNumberOfPoints", "-ExpectedNumberOfCells", "-ExpectedNumberOfPolys",
     "-ClosedSurfaceXMinExtent", "-ClosedSurfaceXMaxExtent", "-ClosedSurfaceYMinExtent",
     "-ClosedSurfaceYMaxExtent", "-ClosedSurfaceZMinExtent", "-ClosedSurfaceZMaxExtent"] := by
  rfl

/-- A command line with every flag in its place, each with a value, parses to `boundLocals`. -/
theorem parseArguments_all_flags (rt : Runtime) (argv : List String)
    (hlen : 2 * flagNames.length + 1 ≤ argv.length)
    (hflags : ∀ i < flagNames.length,
      STRCASECMP (argv.getD (2 * i + 1) "") (flagNames.getD i "") = 0) :
    parseArguments rt argv = Except.ok (boundLocals rt argv) := by
  have hlen2 : 37 ≤ argv.length := hlen
  have h0 := hflags 0 (by decide)
  have h1 := hflags 1 (by decide)
  have h2 := hflags 2 (by decide)
  have h3 := hflags 3 (by decide)
  have h4 := hflags 4 (by decide)
  have h5 := hflags 5 (by decide)
  have h6 := hflags 6 (by decide)
  have h7 := hflags 7 (by decide)
  have h8 := hflags 8 (by decide)
  have h9 := hflags 9 (by decide)
  have h10 := hflags 10 (by decide)
  have h11 := hflags 11 (by decide)
  have h12 := hflags 12 (by decide)
  have h13 := hflags 13 (by decide)
  have h14 := hflags 14 (by decide)
  have h15 := hflags 15 (by decide)
  have h16 := hflags 16 (by decide)
  have h17 := hflags 17 (by decide)
  rw [flagNames_eq] at h0 h1 h2 h3 h4 h5 h6 h7 h8 h9 h10 h11 h12 h13 h14 h15 h16 h17
  simp only [List.getD_cons_zero, List.getD_cons_succ, Nat.reduceMul, Nat.reduceAdd] at h0 h1 h2 h3 h4 h5 h6 h7 h8 h9 h10 h11 h12 h13 h14 h15 h16 h17
  unfold parseArguments flagBlocks
  simp only [initialLocals]
  rw [runFlagBlocks_cons_match _ _ _ _ _ (by simp only []; omega) (by simpa only [] using h0)]
  simp only [Nat.reduceAdd]
  rw [runFlagBlocks_cons_match _ _ _ _ _ (by simp only []; omega) (by simpa only [] using h1)]
  simp only [Nat.reduceAdd]
  rw [runFlagBlocks_cons_match _ _ _ _ _ (by simp only []; omega) (by simpa only [] using h2)]
  simp only [Nat.reduceAdd]
  rw [runFlagBlocks_cons_match _ _ _ _ _ (by simp only []; omega) (by simpa only [] using h3)]
  simp only [Nat.reduceAdd]
  rw [runFlagBlocks_cons_match _ _ _ _ _ (by simp only []; omega) (by simpa only [] using h4)]
  simp only [Nat.reduceAdd]
  rw [runFlagBlocks_cons_match _ _ _ _ _ (by simp only []; omega) (by simpa only [] using h5)]
  simp only [Nat.reduceAdd]
  rw [runFlagBlocks_cons_match _ _ _ _ _ (by simp only []; omega) (by simpa only [] using h6)]
  simp only [Nat.reduceAdd]
  rw [runFlagBlocks_cons_match _ _ _ _ _ (by simp only []; omega) (by simpa only [] using h7)]
  simp only [Nat.reduceAdd]
  rw [runFlagBlocks_cons_match _ _ _ _ _ (by simp only []; omega) (by simpa only [] using h8)]
  simp only [Nat.reduceAdd]
  rw [runFlagBlocks_cons_match _ _ _ _ _ (by simp only []; omega) (by simpa only [] using h9)]
  simp only [Nat.reduceAdd]
  rw [runFlagBlocks_cons_match _ _ _ _ _ (by simp only []; omega) (by simpa only [] using h10)]
  simp only [Nat.reduceAdd]
  rw [runFlagBlocks_cons_match _ _ _ _ _ (by simp only []; omega) (by simpa only [] using h11)]
  simp only [Nat.reduceAdd]
  rw [runFlagBlocks_cons_match _ _ _ _ _ (by simp only []; omega) (by simpa only [] using h12)]
  simp only [Nat.reduceAdd]
  rw [runFlagBlocks_cons_match _ _ _ _ _ (by simp only []; omega) (by simpa only [] using h13)]
  simp only [Nat.reduceAdd]
  rw [runFlagBlocks_cons_match _ _ _ _ _ (by simp only []; omega) (by simpa only [] using h14)]
  simp only [Nat.reduceAdd]
  rw [runFlagBlocks_cons_match _ _ _ _ _ (by simp only []; omega) (by simpa only [] using h15)]
  simp only [Nat.reduceAdd]
  rw [runFlagBlocks_cons_match _ _ _ _ _ (by simp only []; omega) (by simpa only [] using h16)]
  simp only [Nat.reduceAdd]
  rw [runFlagBlocks_cons_match _ _ _ _ _ (by simp only []; omega) (by simpa only [] using h17)]
  simp only [Nat.reduceAdd]
  simp only [runFlagBlocks, boundLocals]
  congr 2
  · funext i
    fin_cases i <;> simp [Function.update]
  · funext i
    fin_cases i <;> simp [Function.update]

/-- A statement over the six indices of an extent or bounds array is the conjunction of its six
instances. -/
theorem forall_fin_six (P : Fin 6 → Prop) :
    (∀ i, P i) ↔ P 0 ∧ P 1 ∧ P 2 ∧ P 3 ∧ P 4 ∧ P 5 := by
  constructor
  · intro h
    exact ⟨h 0, h 1, h 2, h 3, h 4, h 5⟩
  · rintro ⟨h0, h1, h2, h3, h4, h5⟩ i
    fin_cases i <;> assumption

/-- A command line that gives the first `k` flags in order and has at most one token after
their values fails the parsing. -/
theorem runFlagBlocks_truncated (rt : Runtime) (argv : List String) (bs : List FlagBlock) :
    ∀ l k, (∀ b ∈ bs, b.KeepsArgIndex) → k < bs.length →
      (∀ i, i < k →
        STRCASECMP (argv.getD (l.argIndex + 2 * i) "") ((bs.map FlagBlock.flag).getD i "") = 0) →
      argv.length ≤ l.argIndex + 2 * k + 1 →
      ∃ e, runFlagBlocks rt argv bs l = Except.error e := by
  induction bs with
  | nil =>
    intro l k _ hk
    simp at hk
  | cons b bs ih =>
    intro l k hkeep hk hflags hlen
    by_cases hshort : argv.length ≤ l.argIndex + 1
    · exact ⟨b.diagnostic, runFlagBlocks_cons_short rt argv b bs l hshort⟩
    · have hlen1 : l.argIndex + 1 < argv.length := by omega
      cases k with
      | zero => omega
      | succ k =>
        have h0 := hflags 0 (by omega)
        simp only [Nat.mul_zero, Nat.add_zero, List.map_cons, List.getD_cons_zero] at h0
        rw [runFlagBlocks_cons_match rt argv b bs l hlen1 h0]
        have hidx : (b.bind rt (argv.getD (l.argIndex + 1) "")
            { l with argIndex := l.argIndex + 2 }).argIndex = l.argIndex + 2 := by
          rw [(hkeep b (by simp)).1]
        apply ih _ k (fun c hc => hkeep c (by simp [hc])) (by simpa using hk)
        · intro i hi
          have := hflags (i + 1) (by omega)
          simp only [List.map_cons, List.getD_cons_succ] at this
          rw [hidx]
          have he : l.argIndex + 2 + 2 * i = l.argIndex + 2 * (i + 1) := by ring
          rw [he]
          exact this
        · rw [hidx]
          omega

/-- After a successful parsing the driver makes calls on the scene. -/
theorem runConversions_actions_ne_nil (host : Host) (l : Locals) :
    (runConversions host l).actions ≠ [] := by
  unfold runConversions
  simp only
  split_ifs
  · simp
  · split
    · simp
    · split_ifs <;> simp

/-- The flags of the first `k` blocks are the first `k` flag names. -/
theorem flagNames_take (k i : Nat) (h : i < k) :
    ((flagBlocks.take k).map FlagBlock.flag).getD i "" = flagNames.getD i "" := by
  simp [flagNames, List.map_take, List.getD_eq_getElem?_getD, List.getElem?_take, h]

/-! ## Lemmas on the comparisons of the driver -/

/-- A non-zero result is within tolerance of itself. -/
theorem check_self (x : ℚ) (hx : x ≠ 0) :
    CheckIfResultIsWithinOneTenthPercentFromBaseline x x = true := by
  have hx0 : ¬ x = 0.0 := by
    norm_num
    exact hx
  simp only [CheckIfResultIsWithinOneTenthPercentFromBaseline, fabs, if_neg hx0,
    decide_eq_true_eq, div_self hx]
  norm_num

/-- The bounds read from the example command line are the bounds of the example surface. -/
theorem exampleArgv_expectedBounds (i : Fin 6) :
    (boundLocals exampleRuntime exampleArgv).expectedBounds i
      = exampleBodyContour.closedSurfaceModel.rasBounds i := by
  fin_cases i
  · show ((readDecimal (exampleArgv.getD 26 "") 0 : Int) : ℚ) = -1
    rw [show readDecimal (exampleArgv.getD 26 "") 0 = -1 from by decide]
    norm_num
  · show ((readDecimal (exampleArgv.getD 28 "") 0 : Int) : ℚ) = 1
    rw [show readDecimal (exampleArgv.getD 28 "") 0 = 1 from by decide]
    norm_num
  · show ((readDecimal (exampleArgv.getD 30 "") 0 : Int) : ℚ) = -1
    rw [show readDecimal (exampleArgv.getD 30 "") 0 = -1 from by decide]
    norm_num
  · show ((readDecimal (exampleArgv.getD 32 "") 0 : Int) : ℚ) = 1
    rw [show readDecimal (exampleArgv.getD 32 "") 0 = 1 from by decide]
    norm_num
  · show ((readDecimal (exampleArgv.getD 34 "") 0 : Int) : ℚ) = -1
    rw [show readDecimal (exampleArgv.getD 34 "") 0 = -1 from by decide]
    norm_num
  · show ((readDecimal (exampleArgv.getD 36 "") 0 : Int) : ℚ) = 1
    rw [show readDecimal (exampleArgv.getD 36 "") 0 = 1 from by decide]
    norm_num

/-- The bounds of the example surface are not zero. -/
theorem exampleBodyContour_rasBounds_ne_zero (i : Fin 6) :
    exampleBodyContour.closedSurfaceModel.rasBounds i ≠ 0 := by
  fin_cases i <;>
    first
    | (show (-1 : ℚ) ≠ 0; norm_num)
    | (show (1 : ℚ) ≠ 0; norm_num)

/-- The bounds read from the command line `fullArgv` are the bounds of the example surface. -/
theorem fullArgv_expectedBounds (i : Fin 6) :
    (boundLocals exampleRuntime fullArgv).expectedBounds i
      = fullBodyContour.closedSurfaceModel.rasBounds i := by
  fin_cases i
  · show ((readDecimal (fullArgv.getD 26 "") 0 : Int) : ℚ) = -1
    rw [show readDecimal (fullArgv.getD 26 "") 0 = -1 from by decide]
    norm_num
  · show ((readDecimal (fullArgv.getD 28 "") 0 : Int) : ℚ) = 1
    rw [show readDecimal (fullArgv.getD 28 "") 0 = 1 from by decide]
    norm_num
  · show ((readDecimal (fullArgv.getD 30 "") 0 : Int) : ℚ) = -1
    rw [show readDecimal (fullArgv.getD 30 "") 0 = -1 from by decide]
    norm_num
  · show ((readDecimal (fullArgv.getD 32 "") 0 : Int) : ℚ) = 1
    rw [show readDecimal (fullArgv.getD 32 "") 0 = 1 from by decide]
    norm_num
  · show ((readDecimal (fullArgv.getD 34 "") 0 : Int) : ℚ) = -1
    rw [show readDecimal (fullArgv.getD 34 "") 0 = -1 from by decide]
    norm_num
  · show ((readDecimal (fullArgv.getD 36 "") 0 : Int) : ℚ) = 1
    rw [show readDecimal (fullArgv.getD 36 "") 0 = 1 from by decide]
    norm_num

/-- A counting loop adds the number of elements that pass the test. -/
theorem foldl_count (p : Int → Bool) (xs : List Int) :
    ∀ c : Int, xs.foldl (fun count x => if p x = true then count + 1 else count) c
      = c + ((xs.filter p).length : Int) := by
  induction xs with
  | nil => intro c; simp
  | cons x xs ih =>
    intro c
    simp only [List.foldl_cons, List.filter_cons]
    rw [ih]
    by_cases hp : p x = true
    · simp only [hp, if_true, List.length_cons]
      push_cast
      ring
    · simp only [hp, if_false]
      simp

/-- A loop whose body adds a number to the counter adds the sum of these numbers. -/
theorem foldl_add (f : Int → Int → Int) (g : Int → Nat)
    (hf : ∀ c y, f c y = c + (g y : Int)) (ys : List Int) :
    ∀ c : Int, ys.foldl f c = c + (((ys.map g).sum : Nat) : Int) := by
  induction ys with
  | nil => intro c; simp
  | cons y ys ih =>
    intro c
    simp only [List.foldl_cons, List.map_cons, List.sum_cons]
    rw [ih, hf]
    push_cast
    ring

/-- What the loops of the driver count: the non-zero voxels `(x,y,z)` with `xmin ≤ x < xmax`,
`ymin ≤ y < ymax`, `zmin ≤ z < zmax`, the box without its three maximum faces. -/
theorem voxelCount_eq_box_below_maxima (image : ImageData) (extents : Fin 6 → Int) :
    voxelCount image extents = nonZeroVoxelsInExtentBox image (lowerMaxima extents) := by
  unfold voxelCount nonZeroVoxelsInExtentBox lowerMaxima
  simp only [Matrix.cons_val_zero, Matrix.cons_val_one, Matrix.head_cons, sub_add_cancel]
  have e2 : (![extents 0, extents 1 - 1, extents 2, extents 3 - 1, extents 4, extents 5 - 1]
      : Fin 6 → Int) 2 = extents 2 := rfl
  have e3 : (![extents 0, extents 1 - 1, extents 2, extents 3 - 1, extents 4, extents 5 - 1]
      : Fin 6 → Int) 3 = extents 3 - 1 := rfl
  have e4 : (![extents 0, extents 1 - 1, extents 2, extents 3 - 1, extents 4, extents 5 - 1]
      : Fin 6 → Int) 4 = extents 4 := rfl
  have e5 : (![extents 0, extents 1 - 1, extents 2, extents 3 - 1, extents 4, extents 5 - 1]
      : Fin 6 → Int) 5 = extents 5 - 1 := rfl
  rw [e2, e3, e4, e5]
  simp only [sub_add_cancel]
  have hx : ∀ (z y c : Int),
      (forRange (extents 0) (extents 1)).foldl
        (fun count x => if image.scalar x y z ≠ 0 then count + 1 else count) c
      = c + (((forRange (extents 0) (extents 1)).filter
          (fun x => decide (image.scalar x y z ≠ 0))).length : Int) := by
    intro z y c
    have := foldl_count (fun x => decide (image.scalar x y z ≠ 0))
      (forRange (extents 0) (extents 1)) c
    simpa using this
  have hy : ∀ (z c : Int),
      (forRange (extents 2) (extents 3)).foldl (fun count y =>
        (forRange (extents 0) (extents 1)).foldl
          (fun count x => if image.scalar x y z ≠ 0 then count + 1 else count) count) c
      = c + ((((forRange (extents 2) (extents 3)).map (fun y =>
          ((forRange (extents 0) (extents 1)).filter
            (fun x => decide (image.scalar x y z ≠ 0))).length)).sum : Nat) : Int) := by
    intro z c
    exact foldl_add _ _ (fun c y => hx z y c) _ c
  have hz := foldl_add
    (fun count z => (forRange (extents 2) (extents 3)).foldl (fun count y =>
        (forRange (extents 0) (extents 1)).foldl
          (fun count x => if image.scalar x y z ≠ 0 then count + 1 else count) count) count)
    (fun z => ((forRange (extents 2) (extents 3)).map (fun y =>
          ((forRange (extents 0) (extents 1)).filter
            (fun x => decide (image.scalar x y z ≠ 0))).length)).sum)
    (fun c z => hy z c) (forRange (extents 4) (extents 5)) 0
  rw [hz]
  simp

/-! ## Lemmas on the expected voxel count -/

/-- A run over two lists of blocks is the run over the first and then, from its locals, the run
over the second. -/
theorem runFlagBlocks_append (rt : Runtime) (argv : List String) (bs cs : List FlagBlock) :
    ∀ l, runFlagBlocks rt argv (bs ++ cs) l =
      match runFlagBlocks rt argv bs l with
      | Except.ok l1 => runFlagBlocks rt argv cs l1
      | Except.error e => Except.error e := by
  induction bs with
  | nil => intro l; rfl
  | cons b bs ih =>
    intro l
    simp only [List.cons_append, runFlagBlocks]
    cases runFlagBlock rt argv b l with
    | ok l1 => exact ih l1
    | error e => rfl

/-- A block that leaves `nonZeroVoxelCount` alone hands it on unchanged. -/
theorem runFlagBlock_keepsVoxelCount (rt : Runtime) (argv : List String) (b : FlagBlock)
    (l l1 : Locals) (hkeep : b.KeepsVoxelCount) (h : runFlagBlock rt argv b l = Except.ok l1) :
    l1.nonZeroVoxelCount = l.nonZeroVoxelCount := by
  unfold runFlagBlock at h
  split_ifs at h with h1 h2
  · injection h with h
    subst h
    rw [hkeep.1]
  · injection h with h
    subst h
    rw [hkeep.2]

/-- Blocks that leave `nonZeroVoxelCount` alone hand it on unchanged. -/
theorem runFlagBlocks_keepsVoxelCount (rt : Runtime) (argv : List String)
    (bs : List FlagBlock) :
    ∀ l l1, (∀ b ∈ bs, b.KeepsVoxelCount) → runFlagBlocks rt argv bs l = Except.ok l1 →
      l1.nonZeroVoxelCount = l.nonZeroVoxelCount := by
  induction bs with
  | nil =>
    intro l l1 _ h
    simp only [runFlagBlocks] at h
    injection h with h
    rw [h]
  | cons b bs ih =>
    intro l l1 hkeep h
    simp only [runFlagBlocks] at h
    cases hb : runFlagBlock rt argv b l with
    | error e =>
      rw [hb] at h
      cases h
    | ok l2 =>
      rw [hb] at h
      rw [ih l2 l1 (fun c hc => hkeep c (by simp [hc])) h]
      exact runFlagBlock_keepsVoxelCount rt argv b l l2 (hkeep b (by simp)) hb

/-- The blocks before and after the block of `-NonZeroVoxelCount` leave `nonZeroVoxelCount`
alone. -/
theorem flagBlocks_keepVoxelCount :
    (∀ b ∈ flagBlocks.take 2, b.KeepsVoxelCount) ∧ ∀ b ∈ flagBlocks.drop 3, b.KeepsVoxelCount := by
  constructor
  · intro b hb
    simp only [flagBlocks, List.take_succ_cons, List.take_zero, List.mem_cons,
      List.not_mem_nil, or_false] at hb
    rcases hb with h | h <;> subst h <;> exact ⟨fun _ _ _ => rfl, fun _ => rfl⟩
  · intro b hb
    simp only [flagBlocks, List.drop_succ_cons, List.drop_zero, List.mem_cons,
      List.not_mem_nil, or_false] at hb
    rcases hb with h | h | h | h | h | h | h | h | h | h | h | h | h | h | h <;>
      subst h <;> exact ⟨fun _ _ _ => rfl, fun _ => rfl⟩

/-- When the block of `-NonZeroVoxelCount` does not find its flag, a successful parsing leaves
`nonZeroVoxelCount` at -1. -/
theorem parseArguments_unmatched_count (rt : Runtime) (argv : List String) (l : Locals)
    (hmiss : nonZeroVoxelCountFlagMatched rt argv = false)
    (hparse : parseArguments rt argv = Except.ok l) : l.nonZeroVoxelCount = -1 := by
  have hsplit : flagBlocks = flagBlocks.take 2 ++ (flagBlocks.drop 2) :=
    (List.take_append_drop 2 flagBlocks).symm
  have hdrop : flagBlocks.drop 2 =
      { flag := "-NonZeroVoxelCount"
        bind := fun rt arg l =>
          { l with nonZeroVoxelCount := rt.extractInt arg l.nonZeroVoxelCount }
        otherwise := id
        diagnostic := "No arguments!" } :: flagBlocks.drop 3 := rfl
  unfold parseArguments at hparse
  rw [hsplit, runFlagBlocks_append] at hparse
  unfold nonZeroVoxelCountFlagMatched at hmiss
  cases h2 : runFlagBlocks rt argv (flagBlocks.take 2) (initialLocals rt) with
  | error e =>
    rw [h2] at hparse
    cases hparse
  | ok l2 =>
    rw [h2] at hparse hmiss
    simp only [decide_eq_false_iff_not] at hmiss
    have hl2 : l2.nonZeroVoxelCount = -1 :=
      runFlagBlocks_keepsVoxelCount rt argv _ _ l2 flagBlocks_keepVoxelCount.1 h2
    rw [hdrop] at hparse
    simp only [runFlagBlocks, runFlagBlock] at hparse
    split_ifs at hparse with hlen hflag
    · exact absurd ⟨hlen, hflag⟩ hmiss
    · simp only [id] at hparse
      rw [runFlagBlocks_keepsVoxelCount rt argv _ _ l flagBlocks_keepVoxelCount.2 hparse]
      exact hl2

/-- The loops of the driver never count below zero. -/
theorem voxelCount_nonneg (image : ImageData) (extents : Fin 6 → Int) :
    0 ≤ voxelCount image extents := by
  rw [voxelCount_eq_box_below_maxima]
  unfold nonZeroVoxelsInExtentBox
  positivity

/-! ## The tolerance test, the exit code and the voxel count of the driver -/

/-- C1: for every result value `r`, `CheckIfResultIsWithinOneTenthPercentFromBaseline(r, 0.0)`
returns true if and only if `|r| < 0.0001`, the arithmetic read exactly. -/
theorem check_zero_baseline_iff (r : ℚ) :
    CheckIfResultIsWithinOneTenthPercentFromBaseline r 0.0 = true ↔ |r| < 0.0001 := by
  simp only [CheckIfResultIsWithinOneTenthPercentFromBaseline, fabs]
  norm_num

/-- C2: for every result value `r` and every baseline `b ≠ 0`,
`CheckIfResultIsWithinOneTenthPercentFromBaseline(r, b)` returns true if and only if
`|r/b - 1| < 0.001`: the test `|r/b - 1| * 100 < 0.1` of the code is the 0.1% threshold on the
relative difference, the arithmetic read exactly. -/
theorem check_nonzero_baseline_iff (r b : ℚ) (hb : b ≠ 0) :
    CheckIfResultIsWithinOneTenthPercentFromBaseline r b = true ↔ |r / b - 1| < 0.001 := by
  have hb0 : ¬ b = 0.0 := by
    norm_num
    exact hb
  simp only [CheckIfResultIsWithinOneTenthPercentFromBaseline, fabs, if_neg hb0,
    decide_eq_true_eq]
  norm_num
  constructor <;> intro h <;> linarith

/-- C2 at the result 2001 and the baseline 2000: the relative difference is 0.05%, within the
threshold. -/
theorem check_nonzero_baseline_iff_witness :
    (2000 : ℚ) ≠ 0 ∧
    (CheckIfResultIsWithinOneTenthPercentFromBaseline 2001 2000 = true ↔
      |(2001 : ℚ) / 2000 - 1| < 0.001) :=
  ⟨by norm_num, check_nonzero_baseline_iff 2001 2000 (by norm_num)⟩

/-- The comparisons of the driver as it makes them: once argument parsing has succeeded and
both scene nodes were found (one node named "Dose", and the body contour), the driver returns
exit code 0 if and only if the six label-map extents equal the six expected extents, the count
of its own loops (`voxelCount`) equals the expected count, each of the six closed-surface
bounds is within tolerance of its expected bound, and the point, cell and polygon counts equal
their expected integers; in every other case it returns exit code 1. -/
theorem driver_exit_code_iff (rt : Runtime) (host : Host) (argv : List String) (l : Locals)
    (bodyContourNode : ContourNode)
    (hparse : parseArguments rt argv = Except.ok l)
    (hdose : (host.importScene (l.testSceneFileName.getD "")
      (l.temporarySceneFileName.getD "")).doseVolumeNodes = 1)
    (hbody : (host.importScene (l.testSceneFileName.getD "")
      (l.temporarySceneFileName.getD "")).bodyContourNode = some bodyContourNode) :
    ((vtkSlicerContoursModuleLogicTestConversions rt host argv).exitCode = 0 ↔
      (∀ i, bodyContourNode.indexedLabelmap.extent i = l.expectedExtents i) ∧
      voxelCount bodyContourNode.indexedLabelmap bodyContourNode.indexedLabelmap.extent
        = l.nonZeroVoxelCount ∧
      (∀ i, CheckIfResultIsWithinOneTenthPercentFromBaseline
        (bodyContourNode.closedSurfaceModel.rasBounds i) (l.expectedBounds i) = true) ∧
      bodyContourNode.closedSurfaceModel.polyData.numberOfPoints = l.expectedNumberOfPoints ∧
      bodyContourNode.closedSurfaceModel.polyData.numberOfCells = l.expectedNumberOfCells ∧
      bodyContourNode.closedSurfaceModel.polyData.numberOfPolys = l.expectedNumberOfPolys) ∧
    ((vtkSlicerContoursModuleLogicTestConversions rt host argv).exitCode ≠ 0 →
      (vtkSlicerContoursModuleLogicTestConversions rt host argv).exitCode = 1) := by
  simp only [vtkSlicerContoursModuleLogicTestConversions, hparse, runConversions, hdose, hbody]
  simp only [forall_fin_six]
  constructor
  · split_ifs <;> simp [EXIT_SUCCESS, EXIT_FAILURE] <;> intros <;> simp_all
  · split_ifs <;> simp [EXIT_SUCCESS, EXIT_FAILURE]


/-- The example command line on the example host: the parsing succeeds and the run returns
exit code 0. -/
theorem driver_exit_code_example :
    parseArguments exampleRuntime exampleArgv
      = Except.ok (boundLocals exampleRuntime exampleArgv) ∧
    (vtkSlicerContoursModuleLogicTestConversions exampleRuntime exampleHost exampleArgv).exitCode
      = 0 :=
  ⟨parseArguments_all_flags exampleRuntime exampleArgv (by decide) (by decide),
    (driver_exit_code_iff exampleRuntime exampleHost exampleArgv
      (boundLocals exampleRuntime exampleArgv) exampleBodyContour
      (parseArguments_all_flags exampleRuntime exampleArgv (by decide) (by decide))
      (by decide) (by rfl)).1.2
      ⟨by decide, by decide,
        fun i => by
          rw [exampleArgv_expectedBounds i]
          exact check_self _ (exampleBodyContour_rasBounds_ne_zero i),
        by decide, by decide, by decide⟩⟩

/-- C3, the code at a failing input: the command line `fullArgv` parses, the scene holds one
dose volume and the body contour, the label map has eight non-zero voxels over its extent box
and the expected count is 1, so the non-zero voxel count does not equal the expected count;
the loops of the driver count 1, and the driver returns exit code 0, not 1. -/
theorem driver_accepts_wrong_voxel_count :
    parseArguments exampleRuntime fullArgv
      = Except.ok (boundLocals exampleRuntime fullArgv) ∧
    (fullHost.importScene "test.mrml" "temp.mrml").doseVolumeNodes = 1 ∧
    (fullHost.importScene "test.mrml" "temp.mrml").bodyContourNode = some fullBodyContour ∧
    (boundLocals exampleRuntime fullArgv).testSceneFileName = some "test.mrml" ∧
    (boundLocals exampleRuntime fullArgv).temporarySceneFileName = some "temp.mrml" ∧
    (boundLocals exampleRuntime fullArgv).nonZeroVoxelCount = 1 ∧
    nonZeroVoxelsInExtentBox fullBodyContour.indexedLabelmap
      fullBodyContour.indexedLabelmap.extent = 8 ∧
    voxelCount fullBodyContour.indexedLabelmap fullBodyContour.indexedLabelmap.extent = 1 ∧
    (vtkSlicerContoursModuleLogicTestConversions exampleRuntime fullHost fullArgv).exitCode
      = 0 :=
  ⟨parseArguments_all_flags exampleRuntime fullArgv (by decide) (by decide),
    by decide, by rfl, by decide, by decide, by decide, by decide, by decide,
    (driver_exit_code_iff exampleRuntime fullHost fullArgv
      (boundLocals exampleRuntime fullArgv) fullBodyContour
      (parseArguments_all_flags exampleRuntime fullArgv (by decide) (by decide))
      (by decide) (by rfl)).1.2
      ⟨by decide, by decide,
        fun i => by
          rw [fullArgv_expectedBounds i]
          exact check_self _ (exampleBodyContour_rasBounds_ne_zero i),
        by decide, by decide, by decide⟩⟩

/-- C4, the code at a failing input: on a label map of 2×2×2 non-zero voxels, extent
(0,1,0,1,0,1), the loops of the driver stop before each extent maximum and count one voxel; the
whole extent box holds eight non-zero voxels. -/
theorem voxelCount_stops_before_extent_maximum :
    voxelCount fullImage fullImage.extent = 1 ∧
    nonZeroVoxelsInExtentBox fullImage fullImage.extent = 8 := by
  decide

/-! ## The argument parsing of the driver -/

/-- C5, counterexample: with its first flag misspelled, and with its first flag and value left
out, the example command line passes the argument parsing, and the driver goes on to import a
scene (of the empty file name) before it returns. -/
theorem parse_passes_misspelled_and_missing_flag :
    STRCASECMP (misspelledArgv.getD 1 "") "-TestSceneFile" ≠ 0 ∧
    (parseArguments exampleRuntime misspelledArgv).isOk = true ∧
    (vtkSlicerContoursModuleLogicTestConversions exampleRuntime exampleHost
        misspelledArgv).actions
      = [Action.Import "", Action.RemoveFile "", Action.Commit "", Action.Commit ""] ∧
    (∀ token ∈ missingFlagArgv, STRCASECMP token "-TestSceneFile" ≠ 0) ∧
    (parseArguments exampleRuntime missingFlagArgv).isOk = true ∧
    (vtkSlicerContoursModuleLogicTestConversions exampleRuntime exampleHost
        missingFlagArgv).actions
      = [Action.Import "", Action.RemoveFile "temp.mrml", Action.Commit "temp.mrml",
          Action.Commit "temp.mrml"] := by
  decide

/-- C5, amended: the driver returns the failure exit code during argument parsing, before any
call on the scene or the converter, exactly when at one of its flag blocks fewer than two
tokens remain from the current argument index (`argc <= argIndex + 1`); this is the case of
every argument vector that gives the first `k` flags in order (`k` less than the number of
flags) and has at most `2k+2` tokens, so that flag `k+1` or its value is not there. -/
theorem parse_fails_iff_tokens_run_out (rt : Runtime) (host : Host) (argv : List String) :
    ((∃ e, parseArguments rt argv = Except.error e) ↔
      ∃ k, k < flagBlocks.length ∧ ∃ lk,
        runFlagBlocks rt argv (flagBlocks.take k) (initialLocals rt) = Except.ok lk ∧
        argv.length ≤ lk.argIndex + 1) ∧
    (∀ k, k < flagNames.length →
      (∀ i, i < k → STRCASECMP (argv.getD (2 * i + 1) "") (flagNames.getD i "") = 0) →
      argv.length ≤ 2 * k + 2 →
      ∃ e, parseArguments rt argv = Except.error e) ∧
    ((∃ e, parseArguments rt argv = Except.error e) ↔
      (vtkSlicerContoursModuleLogicTestConversions rt host argv).actions = []) ∧
    ((vtkSlicerContoursModuleLogicTestConversions rt host argv).actions = [] →
      (vtkSlicerContoursModuleLogicTestConversions rt host argv).exitCode = EXIT_FAILURE) := by
  refine ⟨runFlagBlocks_fails_iff rt argv flagBlocks (initialLocals rt), ?_, ?_, ?_⟩
  · intro k hk hflags hlen
    apply runFlagBlocks_truncated rt argv flagBlocks (initialLocals rt) k
      flagBlocks_keepsArgIndex (by simpa [flagNames] using hk)
    · intro i hi
      have := hflags i hi
      have he : (initialLocals rt).argIndex + 2 * i = 2 * i + 1 := by
        simp only [initialLocals]
        ring
      rw [he]
      exact this
    · simp only [initialLocals]
      omega
  · unfold vtkSlicerContoursModuleLogicTestConversions
    cases h : parseArguments rt argv with
    | error e => simp
    | ok l => simpa using runConversions_actions_ne_nil host l
  · unfold vtkSlicerContoursModuleLogicTestConversions
    cases h : parseArguments rt argv with
    | error e => simp
    | ok l =>
      intro hnil
      exact absurd hnil (runConversions_actions_ne_nil host l)

/-- C5 amended, on a command line that ends after its first flag: the parsing fails. -/
theorem parse_fails_iff_tokens_run_out_witness :
    1 < flagNames.length ∧
    (∀ i, i < 1 → STRCASECMP (truncatedArgv.getD (2 * i + 1) "") (flagNames.getD i "") = 0) ∧
    truncatedArgv.length ≤ 2 * 1 + 2 ∧
    ∃ e, parseArguments exampleRuntime truncatedArgv = Except.error e :=
  ⟨by decide, by decide, by decide,
    (parse_fails_iff_tokens_run_out exampleRuntime exampleHost truncatedArgv).2.1 1
      (by decide) (by decide) (by decide)⟩

/-- C6: for every argument vector that gives all the flags of the driver in the order of the
source, each followed by a value token, the argument parsing does not fail, the argument index
advances by two per flag (it is `1 + 2k` after `k` blocks), and each expected quantity is bound
to what is read from the token after its own flag. -/
theorem parse_binds_each_flag (rt : Runtime) (argv : List String)
    (hlen : 2 * flagNames.length + 1 ≤ argv.length)
    (hflags : ∀ i < flagNames.length,
      STRCASECMP (argv.getD (2 * i + 1) "") (flagNames.getD i "") = 0) :
    ∃ l, parseArguments rt argv = Except.ok l ∧
      (∀ k, k ≤ flagNames.length → ∃ lk,
        runFlagBlocks rt argv (flagBlocks.take k) (initialLocals rt) = Except.ok lk ∧
        lk.argIndex = 1 + 2 * k) ∧
      l.argIndex = 1 + 2 * flagNames.length ∧
      l.testSceneFileName = some (argv.getD 2 "") ∧
      l.temporarySceneFileName = some (argv.getD 4 "") ∧
      l.nonZeroVoxelCount = rt.extractInt (argv.getD 6 "") (-1) ∧
      (∀ i : Fin 6, l.expectedExtents i
        = rt.extractInt (argv.getD (8 + 2 * i.val) "") (rt.expectedExtents i)) ∧
      l.expectedNumberOfPoints = rt.extractInt (argv.getD 20 "") rt.expectedNumberOfPoints ∧
      l.expectedNumberOfCells = rt.extractInt (argv.getD 22 "") rt.expectedNumberOfCells ∧
      l.expectedNumberOfPolys = rt.extractInt (argv.getD 24 "") rt.expectedNumberOfPolys ∧
      (∀ i : Fin 6, l.expectedBounds i
        = rt.extractDouble (argv.getD (26 + 2 * i.val) "") (rt.expectedBounds i)) := by
  refine ⟨boundLocals rt argv, parseArguments_all_flags rt argv hlen hflags, ?_, rfl, rfl, rfl,
    rfl, fun _ => rfl, rfl, rfl, rfl, fun _ => rfl⟩
  intro k hk
  have hlenk : (flagBlocks.take k).length = k := by
    rw [List.length_take]
    exact Nat.min_eq_left (by simpa [flagNames] using hk)
  obtain ⟨lk, hlk, hidx⟩ := runFlagBlocks_all_match rt argv (flagBlocks.take k)
    (initialLocals rt) (fun b hb => flagBlocks_keepsArgIndex b (List.mem_of_mem_take hb))
    (by
      rw [hlenk]
      simp only [initialLocals]
      omega)
    (by
      intro i hi
      rw [hlenk] at hi
      rw [flagNames_take k i hi]
      have he : (initialLocals rt).argIndex + 2 * i = 2 * i + 1 := by
        simp only [initialLocals]
        ring
      rw [he]
      exact hflags i (by omega))
  exact ⟨lk, hlk, by rw [hidx, hlenk]; rfl⟩

/-- C6 on the example command line. -/
theorem parse_binds_each_flag_witness :
    2 * flagNames.length + 1 ≤ exampleArgv.length ∧
    (∀ i < flagNames.length,
      STRCASECMP (exampleArgv.getD (2 * i + 1) "") (flagNames.getD i "") = 0) ∧
    ∃ l, parseArguments exampleRuntime exampleArgv = Except.ok l ∧
      l.argIndex = 37 ∧ l.testSceneFileName = some "test.mrml" ∧ l.nonZeroVoxelCount = 1 :=
  ⟨by decide, by decide,
    match parse_binds_each_flag exampleRuntime exampleArgv (by decide) (by decide) with
    | ⟨l, hl, _, hidx, htest, _, hcount, _⟩ =>
      ⟨l, hl, hidx, htest, by rw [hcount]; decide⟩⟩

/-- C7, counterexample: the flag names of the driver are eighteen, not seventeen; the
example command line, consumed in full, has eighteen flag/value pairs after the program name;
and the command line of the last flag alone is consumed in full with one pair. -/
theorem flag_names_are_not_seventeen :
    flagNames.toFinset.card = 18 ∧
    (parseArguments exampleRuntime exampleArgv).toOption.map Locals.argIndex
      = some exampleArgv.length ∧
    exampleArgv.length = 1 + 2 * 18 ∧
    (parseArguments exampleRuntime lastFlagArgv).toOption.map Locals.argIndex
      = some lastFlagArgv.length ∧
    lastFlagArgv.length = 1 + 2 * 1 := by
  decide

/-- C7, amended: the driver parses eighteen positional flags: the flag names it recognises are
eighteen, distinct also up to the case of letters; after a successful parsing the argument
index is `1 + 2m` for some `m ≤ 18`, never past the end of the argument vector, each of the `m`
tokens at the odd positions before it is one of the flags, and `m = 18` exactly when the
argument vector gives the eighteen flags in the order of the source, each with a value; so a
command line consumed in full is the program name and `m ≤ 18` flag/value pairs. -/
theorem eighteen_flags_at_most_eighteen_pairs (rt : Runtime) (argv : List String) (l : Locals)
    (hparse : parseArguments rt argv = Except.ok l) :
    flagNames.toFinset.card = 18 ∧
    (∀ i, i < 18 → ∀ j, j < 18 →
      STRCASECMP (flagNames.getD i "") (flagNames.getD j "") = 0 → i = j) ∧
    ∃ m, m ≤ 18 ∧ l.argIndex = 1 + 2 * m ∧ l.argIndex ≤ argv.length ∧
      (∀ i, i < m → ∃ f ∈ flagNames, STRCASECMP (argv.getD (2 * i + 1) "") f = 0) ∧
      (m = 18 ↔ 37 ≤ argv.length ∧ ∀ i, i < 18 →
        STRCASECMP (argv.getD (2 * i + 1) "") (flagNames.getD i "") = 0) ∧
      (l.argIndex = argv.length → argv.length = 1 + 2 * m) := by
  refine ⟨by decide, by decide, ?_⟩
  obtain ⟨m, hm, hidx, hle, hsome, hall⟩ := runFlagBlocks_ok_index rt argv flagBlocks
    (initialLocals rt) l flagBlocks_keepsArgIndex hparse
  have h1 : (initialLocals rt).argIndex = 1 := rfl
  have h18 : flagBlocks.length = 18 := rfl
  rw [h1] at hidx hsome hall
  rw [h18] at hm hall
  have hle1 : l.argIndex ≤ argv.length := hle (by simp [flagBlocks])
  refine ⟨m, hm, hidx, hle1, ?_, ⟨?_, ?_⟩, ?_⟩
  · intro i hi
    obtain ⟨f, hf, hfm⟩ := hsome i hi
    exact ⟨f, hf, by rw [Nat.add_comm]; exact hfm⟩
  · intro hm18
    refine ⟨by omega, ?_⟩
    intro i hi
    have := hall hm18 i hi
    rw [Nat.add_comm]
    exact this
  · rintro ⟨hlen, hflags⟩
    have hall2 := parseArguments_all_flags rt argv hlen hflags
    rw [hparse] at hall2
    injection hall2 with hl
    have h37 : l.argIndex = 37 := by rw [hl]; rfl
    omega
  · intro hfull
    rw [← hfull]
    exact hidx

/-- C7 amended, on the example command line. -/
theorem eighteen_flags_at_most_eighteen_pairs_witness :
    parseArguments exampleRuntime exampleArgv
      = Except.ok (boundLocals exampleRuntime exampleArgv) ∧
    ∃ m, m ≤ 18 ∧ (boundLocals exampleRuntime exampleArgv).argIndex = 1 + 2 * m :=
  ⟨parseArguments_all_flags exampleRuntime exampleArgv (by decide) (by decide),
    match (eighteen_flags_at_most_eighteen_pairs exampleRuntime exampleArgv
      (boundLocals exampleRuntime exampleArgv)
      (parseArguments_all_flags exampleRuntime exampleArgv (by decide) (by decide))).2.2 with
    | ⟨m, hm, hidx, _⟩ => ⟨m, hm, hidx⟩⟩

/-! ## The plugin base -/

/-- C8: for every plugin and every parent level string, the map contains the key exactly when
it assigns a value to it, `childLevel(parentLevel)` returns that value when the map contains
the key and the empty string when it does not, and the map is left unchanged in both cases. -/
theorem childLevel_returns_mapped_level (this : qSlicerSubjectHierarchyAbstractPlugin)
    (parentLevel : String) :
    this.m_ChildLevelMap.contains parentLevel
      = (this.m_ChildLevelMap.value? parentLevel).isSome ∧
    (childLevel this parentLevel).value =
      (match this.m_ChildLevelMap.value? parentLevel with
       | some level => level
       | none => "") ∧
    (childLevel this parentLevel).plugin.m_ChildLevelMap = this.m_ChildLevelMap := by
  unfold childLevel QMap.index QMap.value? QMap.contains
  cases h : this.m_ChildLevelMap.entries.find? (fun e => e.1 == parentLevel) with
  | none =>
    have h2 : (this.m_ChildLevelMap.entries.any fun e => e.1 == parentLevel) = false := by
      rw [List.find?_eq_none] at h
      simpa [List.any_eq_false] using h
    simp [h2]
  | some e =>
    have h2 : (this.m_ChildLevelMap.entries.any fun e => e.1 == parentLevel) = true := by
      rw [List.any_eq_true]
      have hp := List.find?_some h
      exact ⟨e, List.mem_of_find?_eq_some h, hp⟩
    simp [h2]

/-- C9: for every call of `addNodeToSubjectHierarchy(nodeToAdd, parentNode)` in which
`nodeToAdd` is null, `parentNode` is null, or the plugin handler has no scene, the operation
returns false and the scene is unchanged (no subject hierarchy node is created); it returns
true only when all three are present. -/
theorem addNode_rejects_missing_input (create : CreateSubjectHierarchyNodeFn)
    (this : qSlicerSubjectHierarchyAbstractPlugin) (handlerScene : Option vtkMRMLScene)
    (nodeToAdd : Option vtkMRMLNode) (parentNode : Option vtkMRMLSubjectHierarchyNode) :
    ((nodeToAdd = none ∨ parentNode = none ∨ handlerScene = none) →
      (addNodeToSubjectHierarchy create this handlerScene nodeToAdd parentNode).call.value
        = false ∧
      (addNodeToSubjectHierarchy create this handlerScene nodeToAdd parentNode).scene
        = handlerScene) ∧
    ((addNodeToSubjectHierarchy create this handlerScene nodeToAdd parentNode).call.value
        = true →
      nodeToAdd.isSome = true ∧ parentNode.isSome = true ∧ handlerScene.isSome = true) := by
  cases nodeToAdd <;> cases parentNode <;> cases handlerScene <;>
    simp [addNodeToSubjectHierarchy]

/-- C9 on a call without a parent node: false is returned and the scene is as before. -/
theorem addNode_rejects_missing_input_witness :
    (addNodeToSubjectHierarchy appendSubjectHierarchyNode examplePlugin
        (some { subjectHierarchyNodes := [exampleSubject] }) (some exampleDose) none).call.value
      = false ∧
    (addNodeToSubjectHierarchy appendSubjectHierarchyNode examplePlugin
        (some { subjectHierarchyNodes := [exampleSubject] }) (some exampleDose) none).scene
      = some { subjectHierarchyNodes := [exampleSubject] } :=
  (addNode_rejects_missing_input appendSubjectHierarchyNode examplePlugin
    (some { subjectHierarchyNodes := [exampleSubject] }) (some exampleDose) none).1
    (Or.inr (Or.inl rfl))

/-- C10, counterexample: a plugin whose map has no entry for the level `Subject` adds a node
under a parent of that level: the call returns true, and with a creation function that appends
the new node, the scene holds a hierarchy node of the empty level afterwards. -/
theorem addNode_unmapped_level_returns_true :
    examplePlugin.m_ChildLevelMap.contains exampleSubject.level = false ∧
    (addNodeToSubjectHierarchy appendSubjectHierarchyNode examplePlugin
        (some { subjectHierarchyNodes := [exampleSubject] }) (some exampleDose)
        (some exampleSubject)).call.value = true ∧
    (addNodeToSubjectHierarchy appendSubjectHierarchyNode examplePlugin
        (some { subjectHierarchyNodes := [exampleSubject] }) (some exampleDose)
        (some exampleSubject)).scene
      = some { subjectHierarchyNodes := [exampleSubject,
          { name := "Dose", level := "", ownerPluginName := none,
            associatedDataNode := some exampleDose }] } := by
  decide

/-- C10, amended: for every plugin and every non-null node and non-null parent with a valid
scene, if the level of the parent has no entry in the child-level map of the plugin,
`childLevel` writes a diagnostic and gives the empty string, and `addNodeToSubjectHierarchy`
calls `CreateSubjectHierarchyNode` on the scene with the empty string as the level and returns
true. -/
theorem addNode_unmapped_level_creates_node (create : CreateSubjectHierarchyNodeFn)
    (this : qSlicerSubjectHierarchyAbstractPlugin) (scene : vtkMRMLScene)
    (nodeToAdd : vtkMRMLNode) (parentNode : vtkMRMLSubjectHierarchyNode)
    (hunmapped : this.m_ChildLevelMap.contains parentNode.level = false) :
    (childLevel this parentNode.level).value = "" ∧
    (addNodeToSubjectHierarchy create this (some scene) (some nodeToAdd)
      (some parentNode)).call.value = true ∧
    (addNodeToSubjectHierarchy create this (some scene) (some nodeToAdd)
      (some parentNode)).scene
      = some (create scene parentNode "" nodeToAdd.name nodeToAdd) ∧
    (addNodeToSubjectHierarchy create this (some scene) (some nodeToAdd)
      (some parentNode)).call.critical
      = ["qSlicerSubjectHierarchyAbstractPlugin::childLevel: Could not get child level for level '"
          ++ parentNode.level ++ "'!"] := by
  simp [addNodeToSubjectHierarchy, childLevel, hunmapped]

/-- C10 amended, on the example plugin and a parent of the level `Subject`. -/
theorem addNode_unmapped_level_creates_node_witness :
    examplePlugin.m_ChildLevelMap.contains exampleSubject.level = false ∧
    (addNodeToSubjectHierarchy appendSubjectHierarchyNode examplePlugin
        (some { subjectHierarchyNodes := [] }) (some exampleDose)
        (some exampleSubject)).call.value = true :=
  ⟨by decide,
    (addNode_unmapped_level_creates_node appendSubjectHierarchyNode examplePlugin
      { subjectHierarchyNodes := [] } exampleDose exampleSubject (by decide)).2.1⟩

/-! ## The tooltip of the plugin base -/

/-- C11, the code at a failing input: called with a null subject hierarchy node, `setTooltip`
sets the tooltip of the item to "Invalid!" and then, the block having no `return`, calls
`GetAssociatedDataNode` on the null node: the run ends in the null dereference, for every
item. -/
theorem setTooltip_null_node_dereferences (item : QStandardItem) :
    setTooltip none item =
      Except.error
        { call := "node->GetAssociatedDataNode()"
          item := { toolTip := "Invalid!" }
          critical :=
            ["qSlicerSubjectHierarchyAbstractPlugin::setTooltip: Subject hierarchy node is NULL!"] } ∧
    ∀ done, setTooltip none item ≠ Except.ok done := by
  constructor
  · rfl
  · intro done h
    cases h

/-- C12: for every non-null subject hierarchy node with level `L` and owner plugin name `P`
(read as "None" when the node has none), `setTooltip` returns, and the tooltip of the item
afterwards is exactly `"Level:" ++ L ++ " Plugin:" ++ P` when the node has no associated data
node, and exactly `T ++ " (" ++ "Level:" ++ L ++ " Plugin:" ++ P ++ ")"` when it has one, of
tag name `T`. -/
theorem setTooltip_level_and_plugin (node : vtkMRMLSubjectHierarchyNode)
    (item : QStandardItem) :
    ∃ done, setTooltip (some node) item = Except.ok done ∧
      done.toolTip =
        (match node.associatedDataNode with
         | none => "Level:" ++ node.level ++ " Plugin:" ++ node.ownerPluginName.getD "None"
         | some associatedNode =>
           associatedNode.nodeTagName ++ " (" ++ "Level:" ++ node.level ++ " Plugin:" ++
             node.ownerPluginName.getD "None" ++ ")") := by
  have hempty : ∀ s : String, "" ++ s = s := by
    intro s
    apply String.ext
    simp
  rcases node with ⟨name, level, ownerPluginName, associatedDataNode⟩
  cases ownerPluginName <;> cases associatedDataNode <;>
    exact ⟨_, rfl, by simp only [QStandardItem.setToolTip, hempty, Option.getD]⟩

/-! ## The expected voxel count of the driver -/

/-- C13: for every argument vector on which the block of `-NonZeroVoxelCount` does not find its
flag, a successful parsing leaves the expected voxel count at its initial value -1; the count
of the loops is never negative; so the driver does not return exit code 0, whatever the host,
the scene and the other arguments: it returns 1. -/
theorem unmatched_voxel_count_flag_never_succeeds (rt : Runtime) (host : Host)
    (argv : List String) (hmiss : nonZeroVoxelCountFlagMatched rt argv = false) :
    (∀ l, parseArguments rt argv = Except.ok l → l.nonZeroVoxelCount = -1) ∧
    (∀ image extents, 0 ≤ voxelCount image extents) ∧
    (vtkSlicerContoursModuleLogicTestConversions rt host argv).exitCode ≠ 0 ∧
    (vtkSlicerContoursModuleLogicTestConversions rt host argv).exitCode = 1 := by
  have hcount := fun l => parseArguments_unmatched_count rt argv l hmiss
  have hone : (vtkSlicerContoursModuleLogicTestConversions rt host argv).exitCode = 1 := by
    unfold vtkSlicerContoursModuleLogicTestConversions
    cases hparse : parseArguments rt argv with
    | error e => rfl
    | ok l =>
      have hl := hcount l hparse
      simp only [runConversions]
      split_ifs with hdose
      · rfl
      · split
        · rfl
        · rename_i bodyContourNode _
          have hne : voxelCount bodyContourNode.indexedLabelmap
              bodyContourNode.indexedLabelmap.extent ≠ l.nonZeroVoxelCount := by
            have := voxelCount_nonneg bodyContourNode.indexedLabelmap
              bodyContourNode.indexedLabelmap.extent
            rw [hl]
            omega
          split_ifs <;> rfl
  refine ⟨hcount, voxelCount_nonneg, ?_, hone⟩
  rw [hone]
  decide

/-- C13 on the example command line without the flag `-NonZeroVoxelCount` and its value: all
else is as the scene has it, and the run ends at the comparison of the voxel count. -/
theorem unmatched_voxel_count_flag_never_succeeds_witness :
    nonZeroVoxelCountFlagMatched exampleRuntime missingCountArgv = false ∧
    (vtkSlicerContoursModuleLogicTestConversions exampleRuntime exampleHost
      missingCountArgv).errorStream
      = ["Non-zero voxel count does not match expected result."] ∧
    (vtkSlicerContoursModuleLogicTestConversions exampleRuntime exampleHost
      missingCountArgv).exitCode = 1 :=
  ⟨by decide, by decide,
    (unmatched_voxel_count_flag_never_succeeds exampleRuntime exampleHost missingCountArgv
      (by decide)).2.2.2⟩

end SlicerRT
